import Mathlib

/-!
Verification development for the cortx-ha message-bus utility
(`ha/util/message_bus.py`): the producer payload normalization
(`MessageBusProducer.publish`), the idempotent topic registration
(`MessageBus.register`), and the consumer worker loop
(`MessageBusConsumer.run`) with its retry/acknowledgment state machine
and the post-stop drain phase.

The Python code is embedded shallowly: the worker loop becomes a fueled
state-transition function over an explicit state, with the external
collaborators (the transport's `receive`/`ack`, the caller's callback,
and the cross-thread stop flag) supplied as oracles indexed by call
count.  Every transport call, handler invocation and log line the loop
performs is recorded in an event trace, so that claims about
acknowledgment counts, invocation counts and ordering become statements
about the trace.
-/

/-- Python values as far as `MessageBusProducer.publish` inspects them:
`isinstance(message, dict)`, `isinstance(message, str)`,
`isinstance(message, list)`, and everything else (numbers, booleans,
`None`).  Dict values are restricted to the literals that occur in the
published payloads. -/
inductive PyLit where
  | n (i : Int)
  | s (str : String)
  | b (flag : Bool)
deriving DecidableEq

/-- Top-level shapes a caller can pass to `publish`. -/
inductive PyObj where
  | dict (kvs : List (String × PyLit))
  | str (s : String)
  | list (elems : List PyObj)
  | num (i : Int)
  | bool (flag : Bool)
  | noneV

/-- `json.dumps` on a literal value (default separators). -/
def litDump : PyLit → String
  | .n i => toString i
  | .s s => "\"" ++ s ++ "\""
  | .b flag => if flag then "true" else "false"

/-- `json.dumps` on a dict with the given key order: Python serializes a
dict in insertion order, so the encoding is order-stable over its keys. -/
def jsonDumps (kvs : List (String × PyLit)) : String :=
  "\x7b" ++ String.intercalate ", "
    (kvs.map (fun kv => "\"" ++ kv.1 ++ "\": " ++ litDump kv.2)) ++ "\x7d"

/-- `MessageBusProducer.publish` (message_bus.py lines 44-60): a dict is
json-dumped and sent as a one-element batch, a string is sent as a
one-element batch, a list is sent as-is (the code performs no check on
its elements), and any other shape raises
`Exception("Invalid type of message ...")`.  The result is the batch
handed to the transport's `send`, or the raised error. -/
def publish : PyObj → Except String (List PyObj)
  | .dict kvs => .ok [.str (jsonDumps kvs)]
  | .str s => .ok [.str s]
  | .list elems => .ok elems
  | _ => .error "Invalid type of message"

/-- Whether `needle` occurs at the head of `hay`. -/
def headMatch : List Char → List Char → Bool
  | _, [] => true
  | [], _ :: _ => false
  | a :: as, b :: bs => a = b && headMatch as bs

/-- Whether `needle` occurs contiguously anywhere in `hay`. -/
def hasSub : List Char → List Char → Bool
  | [], needle => needle.isEmpty
  | a :: as, needle => headMatch (a :: as) needle || hasSub as needle

/-- Substring test on strings, modelling Python's `in` on `str`. -/
def strContains (hay needle : String) : Bool :=
  hasSub hay.toList needle.toList

/-- The outcome of the external `MessageBusAdmin` calls that
`MessageBus.register` makes: the result of `list_message_types()` and the
result of `register_message_type(...)`, each either normal or a raised
exception carrying its message string. -/
structure AdminModel where
  listResult : Except String (List String)
  regResult : Except String Unit

/-- `MessageBus.register` (message_bus.py lines 233-247): query
`list_message_types()`; register only if the type is absent; any
exception whose text contains `TOPIC_ALREADY_EXISTS` is swallowed and the
call completes normally, any other exception is re-raised.  The second
component records whether `register_message_type` was called. -/
def register (message_type : String) (admin : AdminModel) :
    Except String Unit × Bool :=
  match admin.listResult with
  | .error e =>
      (if strContains e "TOPIC_ALREADY_EXISTS" then .ok () else .error e, false)
  | .ok types =>
      if message_type ∈ types then (.ok (), false)
      else
        match admin.regResult with
        | .ok _ => (.ok (), true)
        | .error e =>
            (if strContains e "TOPIC_ALREADY_EXISTS" then .ok () else .error e,
             true)

/-! The status strings of `class CONSUMER_STATUS` (message_bus.py lines
62-66). -/
namespace CONSUMER_STATUS

def SUCCESS : String := "success"

def FAILED : String := "failed"

def FAILED_STOP : String := "failed_stop"

def SUCCESS_STOP : String := "success_stop"

end CONSUMER_STATUS

/-- Modelled from the spec: the constant `const.CORTX_HA_WAIT_TIMEOUT`
lives in `ha/const.py`, which is not among the shown sources.  The spec
describes it only as a bounded default poll timeout ("POLLING (waiting on
the transport for the next message, with a bounded timeout)"), matching
the code comment "setting some default timeout as 0 will block the call
for indefinite time".  Its concrete value does not affect any behaviour
proved below; it is fixed here as a representative positive value. -/
def CORTX_HA_WAIT_TIMEOUT : Nat := 2

/-- Messages are opaque to the worker loop; they are identified by a
number. -/
abbrev Msg : Type := Nat

/-- Result of one call to the transport's `receive`: a message, `None`
on timeout, or a raised exception. -/
inductive RecvResult where
  | msg (m : Msg)
  | idle
  | fail
deriving DecidableEq

/-- The value a Python callback invocation produces, as far as the loop's
`==` comparisons against the `CONSUMER_STATUS` strings can distinguish:
a string, `None`, or any other (non-string) object. -/
inductive PyVal where
  | str (s : String)
  | noneV
  | other
deriving DecidableEq

/-- Result of one callback invocation: a returned value or a raised
exception. -/
inductive CbResult where
  | ret (v : PyVal)
  | exn
deriving DecidableEq

/-- One observable event of the worker loop, in program order:
`poll t r` is a main-loop `receive(timeout=t)` returning `r`; `invoke m`
is a callback invocation on message `m`; `ack ok` is a `consumer.ack()`
call (`ok = false` meaning it raised); `logCb` is the
"Caught exception from caller" error log; `logBus` is the
"Supressing exception from message bus" error log; `drainPoll` and
`drainAck` are the corresponding calls of the flush-on-exit loop. -/
inductive Ev where
  | poll (timeout : Nat) (r : RecvResult)
  | invoke (m : Msg)
  | ack (ok : Bool)
  | logCb
  | logBus
  | drainPoll (timeout : Nat) (r : RecvResult)
  | drainAck (ok : Bool)
deriving DecidableEq

/-- The loop's external collaborators as oracles indexed by call count:
`stopFlag k` is the value of `self._stop.is_set()` at its k-th
evaluation (it may flip to true at any point, modelling a concurrent
`stop()`); `recv k` is the k-th main-loop `receive`; `cb k` the k-th
callback invocation; `ackR k` the k-th main-loop `ack()` (false = it
raised); `drainRecv`/`drainAckR` likewise for the flush loop. -/
structure Env where
  stopFlag : Nat → Bool
  recv : Nat → RecvResult
  cb : Nat → CbResult
  ackR : Nat → Bool
  drainRecv : Nat → RecvResult
  drainAckR : Nat → Bool

/-- The worker loop's mutable state: the `retry` flag, the current
`message` variable, and the oracle call counters. -/
structure St where
  retry : Bool
  message : Option Msg
  iStop : Nat
  iRecv : Nat
  iCb : Nat
  iAck : Nat
  iDRecv : Nat
  iDAck : Nat
deriving DecidableEq

/-- State at thread start: `retry = False`, no message yet, no calls
made. -/
def initSt : St :=
  { retry := false, message := none, iStop := 0, iRecv := 0, iCb := 0,
    iAck := 0, iDRecv := 0, iDAck := 0 }

/-- How one iteration of the `while` body ends: `cont` for falling
through or `continue`, `brk` for `break`. -/
inductive IterOut where
  | cont
  | brk
deriving DecidableEq

/-- The inner part of the loop body from `status = self.callback(message)`
(message_bus.py lines 121-138): a raised callback exception is logged and
turns on `retry`; `SUCCESS` acks and clears `retry`; `FAILED_STOP`
breaks without acking; `SUCCESS_STOP` acks then breaks; any other status
turns on `retry`.  An `ack()` that raises is caught by the loop's outer
`except`, which logs and clears `retry` (so a raising ack never
breaks). -/
def handle (env : Env) (s : St) (m : Msg) : St × List Ev × IterOut :=
  match env.cb s.iCb with
  | .exn =>
      ({ s with iCb := s.iCb + 1, retry := true },
       [Ev.invoke m, Ev.logCb], .cont)
  | .ret v =>
      let s1 : St := { s with iCb := s.iCb + 1 }
      if v = PyVal.str CONSUMER_STATUS.SUCCESS then
        if env.ackR s1.iAck then
          ({ s1 with iAck := s1.iAck + 1, retry := false },
           [Ev.invoke m, Ev.ack true], .cont)
        else
          ({ s1 with iAck := s1.iAck + 1, retry := false },
           [Ev.invoke m, Ev.ack false, Ev.logBus], .cont)
      else if v = PyVal.str CONSUMER_STATUS.FAILED_STOP then
        (s1, [Ev.invoke m], .brk)
      else if v = PyVal.str CONSUMER_STATUS.SUCCESS_STOP then
        if env.ackR s1.iAck then
          ({ s1 with iAck := s1.iAck + 1 }, [Ev.invoke m, Ev.ack true], .brk)
        else
          ({ s1 with iAck := s1.iAck + 1, retry := false },
           [Ev.invoke m, Ev.ack false, Ev.logBus], .cont)
      else
        ({ s1 with retry := true }, [Ev.invoke m], .cont)

/-- One full iteration of the `while` body (message_bus.py lines
113-141), entered after `_stop.is_set()` returned false.  With `retry`
off it polls `receive(timeout=const.CORTX_HA_WAIT_TIMEOUT)` — `None`
means re-poll, an exception is logged at the outer boundary and clears
`retry` — and hands a received message to `handle`.  With `retry` on it
skips the poll and re-presents the remembered message (the unreachable
retry-without-message case mirrors the `NameError` the Python would
raise inside the inner `try`). -/
def iterBody (env : Env) (s : St) : St × List Ev × IterOut :=
  if s.retry then
    match s.message with
    | none => (s, [Ev.logCb], .cont)
    | some m => handle env s m
  else
    match env.recv s.iRecv with
    | .fail =>
        ({ s with iRecv := s.iRecv + 1, retry := false },
         [Ev.poll CORTX_HA_WAIT_TIMEOUT .fail, Ev.logBus], .cont)
    | .idle =>
        ({ s with iRecv := s.iRecv + 1, message := none },
         [Ev.poll CORTX_HA_WAIT_TIMEOUT .idle], .cont)
    | .msg m =>
        let s1 : St := { s with iRecv := s.iRecv + 1, message := some m }
        match handle env s1 m with
        | (s2, evs, out) =>
            (s2, Ev.poll CORTX_HA_WAIT_TIMEOUT (RecvResult.msg m) :: evs, out)

/-- How the `while` loop ends: the stop flag was observed set, a `break`
ran, or the fuel bound was reached before either. -/
inductive MainExit where
  | stopFlagged
  | broke
  | fuelOut
deriving DecidableEq

/-- The `while not self._stop.is_set():` loop (message_bus.py lines
111-141), run for at most `fuel` iterations.  The stop flag is consulted
exactly once per iteration, before anything else; a set flag ends the
loop with no further transport or callback activity. -/
def mainLoop : Nat → Env → St → St × List Ev × MainExit
  | 0, _, s => (s, [], .fuelOut)
  | Nat.succ fuel, env, s =>
      if env.stopFlag s.iStop then
        ({ s with iStop := s.iStop + 1 }, [], .stopFlagged)
      else
        match iterBody env { s with iStop := s.iStop + 1 } with
        | (s1, evs, .brk) => (s1, evs, .broke)
        | (s1, evs, .cont) =>
            match mainLoop fuel env s1 with
            | (s2, evs2, ex) => (s2, evs ++ evs2, ex)

/-- How the flush loop ends: a poll returned `None` (`done`), a transport
exception propagated out of `run` (`crashed`), or fuel ran out. -/
inductive DrainExit where
  | done
  | crashed
  | fuelOut
deriving DecidableEq

/-- The flush-on-exit loop (message_bus.py lines 148-157): repeatedly
`receive(timeout=1)`; `None` ends the loop; a received message is
`ack()`ed and discarded.  This loop sits outside every `try`, so an
exception from `receive` or `ack` here escapes `run` (the thread
crashes). -/
def drainLoop : Nat → Env → St → St × List Ev × DrainExit
  | 0, _, s => (s, [], .fuelOut)
  | Nat.succ fuel, env, s =>
      match env.drainRecv s.iDRecv with
      | .fail =>
          ({ s with iDRecv := s.iDRecv + 1 },
           [Ev.drainPoll 1 .fail], .crashed)
      | .idle =>
          ({ s with iDRecv := s.iDRecv + 1 },
           [Ev.drainPoll 1 .idle], .done)
      | .msg m =>
          let s1 : St := { s with iDRecv := s.iDRecv + 1 }
          if env.drainAckR s1.iDAck then
            match drainLoop fuel env { s1 with iDAck := s1.iDAck + 1 } with
            | (s2, evs, ex) =>
                (s2, Ev.drainPoll 1 (RecvResult.msg m) :: Ev.drainAck true
                       :: evs, ex)
          else
            ({ s1 with iDAck := s1.iDAck + 1 },
             [Ev.drainPoll 1 (RecvResult.msg m), Ev.drainAck false], .crashed)

/-- The constructor parameters stored on `MessageBusConsumer.__init__`
(message_bus.py lines 70-92) together with the two flags the worker
shares with `stop()`: the `_stop` event and `flush_on_exit`. -/
structure MessageBusConsumer where
  consumer_id : Nat
  consumer_group : String
  message_type : String
  auto_ack : Bool
  offset : String
  timeout : Nat
  stopFlagSet : Bool
  flush_on_exit : Bool

/-- `MessageBusConsumer.stop` (message_bus.py lines 173-179): record the
flush request, then set the stop event.  Nothing else is touched: no
interruption is delivered to the worker. -/
def MessageBusConsumer.stop (c : MessageBusConsumer) (flush : Bool) :
    MessageBusConsumer :=
  { c with flush_on_exit := flush, stopFlagSet := true }

/-- How `run` as a whole ends. -/
inductive RunExit where
  | stopped
  | crashed
  | fuelOut
deriving DecidableEq

/-- Lift a flush-loop exit to a `run` exit. -/
def DrainExit.toRunExit : DrainExit → RunExit
  | .done => .stopped
  | .crashed => .crashed
  | .fuelOut => .fuelOut

/-- `MessageBusConsumer.run` (message_bus.py lines 94-157): the main loop
from `initSt`, followed — whenever the main loop exited by stop flag or
`break` — by the flush loop if `flushOnExit` (the value of
`self.flush_on_exit` at loop exit) is set.  The consumer object `c` is
passed as in the source, where `run` is a method: note that the loop
never reads `c.timeout` — the poll timeout is the module constant. -/
def MessageBusConsumer.run (_c : MessageBusConsumer) (flushOnExit : Bool)
    (env : Env) (fuel : Nat) : St × List Ev × RunExit :=
  match mainLoop fuel env initSt with
  | (s, evs, .fuelOut) => (s, evs, .fuelOut)
  | (s, evs, _) =>
      if flushOnExit then
        match drainLoop fuel env s with
        | (s2, evs2, ex) => (s2, evs ++ evs2, ex.toRunExit)
      else (s, evs, .stopped)

/-- Whether a callback result takes the loop's retry path: a raised
exception, or any returned value other than the three statuses the loop
recognizes (`FAILED`, `None`, missing return values and arbitrary
objects all land here). -/
def retryish : CbResult → Bool
  | .exn => true
  | .ret v =>
      !(v = PyVal.str CONSUMER_STATUS.SUCCESS ||
        v = PyVal.str CONSUMER_STATUS.FAILED_STOP ||
        v = PyVal.str CONSUMER_STATUS.SUCCESS_STOP)

/-- Event classifiers used to count transport calls in a trace. -/
def isAckEv : Ev → Bool
  | .ack _ => true
  | _ => false

def isPollEv : Ev → Bool
  | .poll _ _ => true
  | _ => false

def isInvokeEv : Ev → Bool
  | .invoke _ => true
  | _ => false

def isDrainAckEv : Ev → Bool
  | .drainAck _ => true
  | _ => false

def isDrainMsgPollEv : Ev → Bool
  | .drainPoll _ (.msg _) => true
  | _ => false

/-- The shapes an event of the main loop can take: in particular every
poll carries the module-constant timeout, and no drain event occurs. -/
def mainEv (e : Ev) : Prop :=
  (∃ r, e = Ev.poll CORTX_HA_WAIT_TIMEOUT r) ∨ (∃ m, e = Ev.invoke m) ∨
    (∃ ok, e = Ev.ack ok) ∨ e = Ev.logCb ∨ e = Ev.logBus

/-- A poll event whose timeout is NOT the one the code passes: a main
poll with a timeout other than the module constant, or a drain poll with
a timeout other than 1. -/
def wrongTimeoutPoll : Ev → Bool
  | Ev.poll t _ => decide (¬ t = CORTX_HA_WAIT_TIMEOUT)
  | Ev.drainPoll t _ => decide (¬ t = 1)
  | _ => false

/-- A consumer constructed with a nonzero receive timeout of 7. -/
def consumerTimeout7 : MessageBusConsumer :=
  { consumer_id := 1, consumer_group := "health-group",
    message_type := "health-events", auto_ack := false, offset := "earliest",
    timeout := 7, stopFlagSet := false, flush_on_exit := false }

/-- A generic consumer object for concrete instantiations. -/
def sampleConsumer : MessageBusConsumer :=
  { consumer_id := 2, consumer_group := "ha-group",
    message_type := "node-events", auto_ack := false, offset := "earliest",
    timeout := 0, stopFlagSet := false, flush_on_exit := false }

/-- Transport idle on the first poll; stop requested before the second
iteration. -/
def envIdleThenStop : Env :=
  { stopFlag := fun k => decide (1 ≤ k), recv := fun _ => RecvResult.idle,
    cb := fun _ => CbResult.ret PyVal.noneV, ackR := fun _ => true,
    drainRecv := fun _ => RecvResult.idle, drainAckR := fun _ => true }

/-- One message, handler succeeds, ack succeeds. -/
def envSuccessCase : Env :=
  { stopFlag := fun _ => false, recv := fun _ => RecvResult.msg 5,
    cb := fun _ => CbResult.ret (PyVal.str CONSUMER_STATUS.SUCCESS),
    ackR := fun _ => true, drainRecv := fun _ => RecvResult.idle,
    drainAckR := fun _ => true }

/-- One message, handler keeps answering the unrecognized `FAILED`. -/
def envRetryCase : Env :=
  { stopFlag := fun _ => false, recv := fun _ => RecvResult.msg 9,
    cb := fun _ => CbResult.ret (PyVal.str CONSUMER_STATUS.FAILED),
    ackR := fun _ => true, drainRecv := fun _ => RecvResult.idle,
    drainAckR := fun _ => true }

/-- One message; the handler raises on its first invocation and succeeds
on its second; stop is requested before the third iteration. -/
def envExnThenSuccess : Env :=
  { stopFlag := fun k => decide (2 ≤ k), recv := fun _ => RecvResult.msg 7,
    cb := fun k => if k = 0 then CbResult.exn
                   else CbResult.ret (PyVal.str CONSUMER_STATUS.SUCCESS),
    ackR := fun _ => true, drainRecv := fun _ => RecvResult.idle,
    drainAckR := fun _ => true }

/-- Stop already requested; three messages still pending for the drain
phase, then idle. -/
def envDrainThree : Env :=
  { stopFlag := fun _ => true, recv := fun _ => RecvResult.idle,
    cb := fun _ => CbResult.ret PyVal.noneV, ackR := fun _ => true,
    drainRecv := fun k => if k < 3 then RecvResult.msg k else RecvResult.idle,
    drainAckR := fun _ => true }

/-- The first poll raises a transport error. -/
def envRecvRaise : Env :=
  { stopFlag := fun _ => false, recv := fun _ => RecvResult.fail,
    cb := fun _ => CbResult.ret PyVal.noneV, ackR := fun _ => true,
    drainRecv := fun _ => RecvResult.idle, drainAckR := fun _ => true }

/-- Stop already requested before the first iteration. -/
def envStopNow : Env :=
  { stopFlag := fun _ => true, recv := fun _ => RecvResult.idle,
    cb := fun _ => CbResult.ret PyVal.noneV, ackR := fun _ => true,
    drainRecv := fun _ => RecvResult.idle, drainAckR := fun _ => true }

/-- One message; the handler asks for a voluntary stop but the ack
raises. -/
def envStopAckRaise : Env :=
  { stopFlag := fun _ => false, recv := fun _ => RecvResult.msg 4,
    cb := fun _ => CbResult.ret (PyVal.str CONSUMER_STATUS.SUCCESS_STOP),
    ackR := fun _ => false, drainRecv := fun _ => RecvResult.idle,
    drainAckR := fun _ => true }

/-- A poll executed while `retry` is off emits the poll event first,
with the module-constant timeout and the transport's answer. -/
theorem iterBody_polls (env : Env) (s : St) (h : s.retry = false) :
    ∃ rest, (iterBody env s).2.1 =
      Ev.poll CORTX_HA_WAIT_TIMEOUT (env.recv s.iRecv) :: rest := by
  unfold iterBody
  rw [h]
  cases hr : env.recv s.iRecv <;> simp [hr]

/-- Whatever the callback does, the events of `handle` start with the
invocation itself. -/
theorem handle_starts (env : Env) (s : St) (m : Msg) :
    ∃ rest, (handle env s m).2.1 = Ev.invoke m :: rest := by
  cases hc : env.cb s.iCb with
  | exn => simp [handle, hc]
  | ret v =>
      simp only [handle, hc]
      split_ifs <;> simp

/-- An iteration entered with `retry` on and a remembered message skips
the poll: its first event is the re-invocation of that message. -/
theorem iterBody_retry_starts (env : Env) (s : St) (m : Msg)
    (h1 : s.retry = true) (h2 : s.message = some m) :
    ∃ rest, (iterBody env s).2.1 = Ev.invoke m :: rest := by
  obtain ⟨rest, hrest⟩ := handle_starts env s m
  exact ⟨rest, by simp [iterBody, h1, h2, hrest]⟩

/-- A retry-path callback result (exception, or a value other than the
three recognized statuses) turns `retry` on, leaves the remembered
message in place, continues the loop, and emits no transport call. -/
theorem handle_retryish (env : Env) (s : St) (m : Msg)
    (hcb : retryish (env.cb s.iCb) = true) :
    (handle env s m).1.retry = true ∧ (handle env s m).1.message = s.message ∧
    (handle env s m).2.2 = .cont ∧
    ∀ e ∈ (handle env s m).2.1, e = Ev.invoke m ∨ e = Ev.logCb := by
  cases hc : env.cb s.iCb with
  | exn => simp [handle, hc]
  | ret v =>
      rw [hc] at hcb
      by_cases e1 : v = PyVal.str CONSUMER_STATUS.SUCCESS
      · simp [retryish, e1] at hcb
      · by_cases e2 : v = PyVal.str CONSUMER_STATUS.FAILED_STOP
        · simp [retryish, e2] at hcb
        · by_cases e3 : v = PyVal.str CONSUMER_STATUS.SUCCESS_STOP
          · simp [retryish, e3] at hcb
          · simp [handle, hc, e1, e2, e3]

/-- While every callback answer stays on the retry path, the loop keeps
the retry flag and the remembered message, and its whole trace consists
of re-invocations of that same message and caller-error logs: no poll
and no ack ever happens. -/
theorem mainLoop_retry_inv (fuel : Nat) (env : Env)
    (hcb : ∀ k, retryish (env.cb k) = true) :
    ∀ (s : St) (m : Msg), s.retry = true → s.message = some m →
      (mainLoop fuel env s).1.retry = true ∧
      (mainLoop fuel env s).1.message = some m ∧
      ∀ e ∈ (mainLoop fuel env s).2.1, e = Ev.invoke m ∨ e = Ev.logCb := by
  induction fuel with
  | zero =>
      intro s m h1 h2
      simp [mainLoop, h1, h2]
  | succ fuel ih =>
      intro s m h1 h2
      unfold mainLoop
      by_cases hs : env.stopFlag s.iStop
      · simp [hs, h1, h2]
      · have hbody : iterBody env { s with iStop := s.iStop + 1 } =
            handle env { s with iStop := s.iStop + 1 } m := by
          simp [iterBody, h1, h2]
      
        obtain ⟨hr1, hr2, hr3, hr4⟩ :=
          handle_retryish env { s with iStop := s.iStop + 1 } m (hcb _)
        simp only [hs, if_false, Bool.false_eq_true]
        rw [hbody]
        cases hh : handle env { s with iStop := s.iStop + 1 } m with
        | mk s1 p =>
            cases p with
            | mk evs out =>
                rw [hh] at hr1 hr2 hr3 hr4
                simp only at hr1 hr2 hr3 hr4
                subst hr3
                obtain ⟨ha, hb, hc2⟩ := ih s1 m hr1 (by rw [hr2]; exact h2)
                refine ⟨by simpa using ha, by simpa using hb, ?_⟩
                intro e he
                simp only [List.mem_append] at he ⊢
                rcases he with he | he
                · exact hr4 e he
                · exact hc2 e he

/-- The events of `handle` are invocations, acks and logs only — never a
poll. -/
theorem handle_evs (env : Env) (s : St) (m : Msg) :
    ∀ e ∈ (handle env s m).2.1,
      e = Ev.invoke m ∨ (∃ ok, e = Ev.ack ok) ∨ e = Ev.logCb ∨ e = Ev.logBus := by
  cases hc : env.cb s.iCb with
  | exn => simp [handle, hc]
  | ret v =>
      simp only [handle, hc]
      split_ifs <;> simp

theorem iterBody_evs (env : Env) (s : St) :
    ∀ e ∈ (iterBody env s).2.1, mainEv e := by
  unfold iterBody
  split
  · split
    · simp [mainEv]
    · next m _ =>
        intro e he
        rcases handle_evs env s m e he with h | ⟨ok, h⟩ | h | h <;>
          subst h <;> simp [mainEv]
  · split
    · simp [mainEv]
    · simp [mainEv]
    · next m hm =>
        simp only []
        intro e he
        simp only [List.mem_cons] at he
        rcases he with h | h
        · subst h; simp [mainEv]
        · rcases handle_evs env
              { s with iRecv := s.iRecv + 1, message := some m } m e h with
            h2 | ⟨ok, h2⟩ | h2 | h2 <;>
            subst h2 <;> simp [mainEv]

theorem mainLoop_evs (fuel : Nat) (env : Env) :
    ∀ s : St, ∀ e ∈ (mainLoop fuel env s).2.1, mainEv e := by
  induction fuel with
  | zero => intro s; simp [mainLoop]
  | succ fuel ih =>
      intro s
      unfold mainLoop
      split
      · simp
      · split
        next s1 evs hh =>
          have hev := iterBody_evs env { s with iStop := s.iStop + 1 }
          rw [hh] at hev
          exact hev
        next s1 evs hh =>
          split
          next s2 evs2 ex hm =>
            intro e he
            simp only [List.mem_append] at he
            rcases he with h | h
            · have hev := iterBody_evs env { s with iStop := s.iStop + 1 }
              rw [hh] at hev
              exact hev e h
            · have := ih s1
              rw [hm] at this
              exact this e h

/-- Structure of a flush-loop trace: only drain polls (timeout 1) and
drain acks occur, the number of ack calls equals the number of polls
that returned a message, and reaching `done` means the trace ends with
the poll that returned `None`. -/
theorem drainLoop_events (fuel : Nat) (env : Env) :
    ∀ s : St,
      (∀ e ∈ (drainLoop fuel env s).2.1,
        (∃ r, e = Ev.drainPoll 1 r) ∨ ∃ ok, e = Ev.drainAck ok) ∧
      ((drainLoop fuel env s).2.1.countP isDrainAckEv =
        (drainLoop fuel env s).2.1.countP isDrainMsgPollEv) ∧
      ((drainLoop fuel env s).2.2 = .done →
        ∃ evs0, (drainLoop fuel env s).2.1 =
          evs0 ++ [Ev.drainPoll 1 RecvResult.idle]) := by
  induction fuel with
  | zero => intro s; simp [drainLoop]
  | succ fuel ih =>
      intro s
      unfold drainLoop
      cases hr : env.drainRecv s.iDRecv with
      | fail => simp [isDrainAckEv, isDrainMsgPollEv]
      | idle => simp [isDrainAckEv, isDrainMsgPollEv]
      | msg m =>
          by_cases ha : env.drainAckR s.iDAck
          · simp only [ha, if_true]
            obtain ⟨ih1, ih2, ih3⟩ :=
              ih { s with iDRecv := s.iDRecv + 1, iDAck := s.iDAck + 1 }
            refine ⟨?_, ?_, ?_⟩
            · intro e he
              simp only [List.mem_cons] at he
              rcases he with h | h | h
              · exact Or.inl ⟨_, h⟩
              · exact Or.inr ⟨_, h⟩
              · exact ih1 e h
            · simp [List.countP_cons, isDrainAckEv, isDrainMsgPollEv, ih2]
            · intro hex
              obtain ⟨evs0, h0⟩ := ih3 hex
              exact ⟨Ev.drainPoll 1 (RecvResult.msg m) ::
                       Ev.drainAck true :: evs0, by simp [h0]⟩
          · simp [ha, isDrainAckEv, isDrainMsgPollEv]

/-- Any event of a full `run` trace is a main-loop event or a drain poll
(timeout 1) or a drain ack. -/
theorem run_evs (c : MessageBusConsumer) (flush : Bool) (env : Env)
    (fuel : Nat) :
    ∀ e ∈ (c.run flush env fuel).2.1,
      mainEv e ∨ (∃ r, e = Ev.drainPoll 1 r) ∨ ∃ ok, e = Ev.drainAck ok := by
  unfold MessageBusConsumer.run
  cases hm : mainLoop fuel env initSt with
  | mk s p =>
      cases p with
      | mk evs ex =>
          have hmain := mainLoop_evs fuel env initSt
          rw [hm] at hmain
          simp only at hmain
          have hdrain := (drainLoop_events fuel env s).1
          cases ex with
          | fuelOut =>
              intro e he
              exact Or.inl (hmain e he)
          | stopFlagged =>
              cases flush with
              | false =>
                  intro e he
                  exact Or.inl (hmain e he)
              | true =>
                  simp only [if_true]
                  intro e he
                  simp only [List.mem_append] at he
                  rcases he with h | h
                  · exact Or.inl (hmain e h)
                  · exact Or.inr (hdrain e h)
          | broke =>
              cases flush with
              | false =>
                  intro e he
                  exact Or.inl (hmain e he)
              | true =>
                  simp only [if_true]
                  intro e he
                  simp only [List.mem_append] at he
                  rcases he with h | h
                  · exact Or.inl (hmain e h)
                  · exact Or.inr (hdrain e h)

/-- C1: if the handler returns `SUCCESS` (the shared representation of
`PROCESSED` and `IGNORED`) the message's iteration acknowledges exactly
once and the loop continues with `retry` off so the next iteration
issues a fresh poll; `FAILED_STOP` breaks the loop without any ack call;
`SUCCESS_STOP` acknowledges and then breaks. -/
theorem outcome_to_ack_and_transition (env : Env) (s : St) (m : Msg)
    (hretry : s.retry = false) (hrecv : env.recv s.iRecv = RecvResult.msg m) :
    (env.cb s.iCb = CbResult.ret (PyVal.str CONSUMER_STATUS.SUCCESS) →
      env.ackR s.iAck = true →
      iterBody env s =
        ({ s with iRecv := s.iRecv + 1, message := some m, iCb := s.iCb + 1,
                  iAck := s.iAck + 1, retry := false },
         [Ev.poll CORTX_HA_WAIT_TIMEOUT (RecvResult.msg m), Ev.invoke m,
          Ev.ack true], IterOut.cont) ∧
      (iterBody env s).2.1.countP isAckEv = 1 ∧
      ∃ rest, (iterBody env (iterBody env s).1).2.1 =
        Ev.poll CORTX_HA_WAIT_TIMEOUT (env.recv (s.iRecv + 1)) :: rest) ∧
    (env.cb s.iCb = CbResult.ret (PyVal.str CONSUMER_STATUS.FAILED_STOP) →
      iterBody env s =
        ({ s with iRecv := s.iRecv + 1, message := some m, iCb := s.iCb + 1 },
         [Ev.poll CORTX_HA_WAIT_TIMEOUT (RecvResult.msg m), Ev.invoke m],
         IterOut.brk) ∧
      (iterBody env s).2.1.countP isAckEv = 0) ∧
    (env.cb s.iCb = CbResult.ret (PyVal.str CONSUMER_STATUS.SUCCESS_STOP) →
      env.ackR s.iAck = true →
      iterBody env s =
        ({ s with iRecv := s.iRecv + 1, message := some m, iCb := s.iCb + 1,
                  iAck := s.iAck + 1 },
         [Ev.poll CORTX_HA_WAIT_TIMEOUT (RecvResult.msg m), Ev.invoke m,
          Ev.ack true], IterOut.brk) ∧
      (iterBody env s).2.1.countP isAckEv = 1) := by
  refine ⟨?_, ?_, ?_⟩
  · intro hcb hack
    have heq : iterBody env s =
        ({ s with iRecv := s.iRecv + 1, message := some m, iCb := s.iCb + 1,
                  iAck := s.iAck + 1, retry := false },
         [Ev.poll CORTX_HA_WAIT_TIMEOUT (RecvResult.msg m), Ev.invoke m,
          Ev.ack true], IterOut.cont) := by
      simp [iterBody, handle, hretry, hrecv, hcb, hack, CONSUMER_STATUS.SUCCESS]
    refine ⟨heq, by rw [heq]; simp [isAckEv], ?_⟩
    rw [heq]
    exact iterBody_polls env _ rfl
  · intro hcb
    have heq : iterBody env s =
        ({ s with iRecv := s.iRecv + 1, message := some m, iCb := s.iCb + 1 },
         [Ev.poll CORTX_HA_WAIT_TIMEOUT (RecvResult.msg m), Ev.invoke m],
         IterOut.brk) := by
      simp [iterBody, handle, hretry, hrecv, hcb, CONSUMER_STATUS.SUCCESS,
            CONSUMER_STATUS.FAILED_STOP]
    exact ⟨heq, by rw [heq]; simp [isAckEv]⟩
  · intro hcb hack
    have heq : iterBody env s =
        ({ s with iRecv := s.iRecv + 1, message := some m, iCb := s.iCb + 1,
                  iAck := s.iAck + 1 },
         [Ev.poll CORTX_HA_WAIT_TIMEOUT (RecvResult.msg m), Ev.invoke m,
          Ev.ack true], IterOut.brk) := by
      simp [iterBody, handle, hretry, hrecv, hcb, hack, CONSUMER_STATUS.SUCCESS,
            CONSUMER_STATUS.FAILED_STOP, CONSUMER_STATUS.SUCCESS_STOP]
    exact ⟨heq, by rw [heq]; simp [isAckEv]⟩

/-- C1 witness: the `SUCCESS` case instantiated on a concrete
environment — exactly one ack call in the iteration. -/
theorem outcome_to_ack_and_transition_witness :
    initSt.retry = false ∧
    envSuccessCase.recv initSt.iRecv = RecvResult.msg 5 ∧
    envSuccessCase.cb initSt.iCb =
      CbResult.ret (PyVal.str CONSUMER_STATUS.SUCCESS) ∧
    envSuccessCase.ackR initSt.iAck = true ∧
    (iterBody envSuccessCase initSt).2.1.countP isAckEv = 1 :=
  ⟨rfl, rfl, rfl, rfl,
   ((outcome_to_ack_and_transition envSuccessCase initSt 5 rfl rfl).1
      rfl rfl).2.1⟩

/-- C2: a retry-path answer (the unrecognized `FAILED`, any value
outside the enumeration, or no value) turns `retry` on, keeps the same
message, continues, and the iteration issued no ack (one poll — the one
that fetched the message); while every answer stays on the retry path,
the continuing loop emits no poll and no ack at all, and every handler
invocation is on that same message. -/
theorem retry_represents_same_message (env : Env) (s : St) (m : Msg)
    (fuel : Nat)
    (hretry : s.retry = false) (hrecv : env.recv s.iRecv = RecvResult.msg m)
    (hcb : retryish (env.cb s.iCb) = true) :
    (iterBody env s).1.retry = true ∧
    (iterBody env s).1.message = some m ∧
    (iterBody env s).2.2 = IterOut.cont ∧
    (iterBody env s).2.1.countP isAckEv = 0 ∧
    (iterBody env s).2.1.countP isPollEv = 1 ∧
    (∃ rest, (iterBody env (iterBody env s).1).2.1 =
      Ev.invoke m :: rest) ∧
    ((∀ k, retryish (env.cb k) = true) →
      ((mainLoop fuel env (iterBody env s).1).2.1.countP isAckEv = 0 ∧
       (mainLoop fuel env (iterBody env s).1).2.1.countP isPollEv = 0 ∧
       ∀ e ∈ (mainLoop fuel env (iterBody env s).1).2.1,
         e = Ev.invoke m ∨ e = Ev.logCb)) := by
  have hbody : iterBody env s =
      ((handle env { s with iRecv := s.iRecv + 1, message := some m } m).1,
       Ev.poll CORTX_HA_WAIT_TIMEOUT (RecvResult.msg m) ::
         (handle env { s with iRecv := s.iRecv + 1, message := some m } m).2.1,
       (handle env { s with iRecv := s.iRecv + 1, message := some m } m).2.2) := by
    simp [iterBody, hretry, hrecv]
  obtain ⟨hr1, hr2, hr3, hr4⟩ :=
    handle_retryish env { s with iRecv := s.iRecv + 1, message := some m } m hcb
  have hcnt0 : (handle env
      { s with iRecv := s.iRecv + 1, message := some m } m).2.1.countP
        isAckEv = 0 := by
    rw [List.countP_eq_zero]
    intro e he
    rcases hr4 e he with h | h <;> subst h <;> simp [isAckEv]
  have hcnt1 : (handle env
      { s with iRecv := s.iRecv + 1, message := some m } m).2.1.countP
        isPollEv = 0 := by
    rw [List.countP_eq_zero]
    intro e he
    rcases hr4 e he with h | h <;> subst h <;> simp [isPollEv]
  have hmsg : (iterBody env s).1.message = some m := by
    rw [hbody]; simpa using hr2
  have hret : (iterBody env s).1.retry = true := by rw [hbody]; exact hr1
  refine ⟨by rw [hbody]; exact hr1, by rw [hbody]; simpa using hr2,
          by rw [hbody]; exact hr3,
          by rw [hbody]; simp [List.countP_cons, isAckEv, hcnt0],
          by rw [hbody]; simp [List.countP_cons, isPollEv, hcnt1],
          iterBody_retry_starts env (iterBody env s).1 m hret hmsg, ?_⟩
  intro hall
  obtain ⟨ha, hb, hc2⟩ :=
    mainLoop_retry_inv fuel env hall (iterBody env s).1 m hret hmsg
  refine ⟨?_, ?_, hc2⟩
  · rw [List.countP_eq_zero]
    intro e he
    rcases hc2 e he with h | h <;> subst h <;> simp [isAckEv]
  · rw [List.countP_eq_zero]
    intro e he
    rcases hc2 e he with h | h <;> subst h <;> simp [isPollEv]

/-- C2 witness: a handler answering `FAILED` forever on a concrete
environment — four further iterations issue no ack. -/
theorem retry_represents_same_message_witness :
    initSt.retry = false ∧
    envRetryCase.recv initSt.iRecv = RecvResult.msg 9 ∧
    retryish (envRetryCase.cb initSt.iCb) = true ∧
    (∀ k, retryish (envRetryCase.cb k) = true) ∧
    (mainLoop 4 envRetryCase (iterBody envRetryCase initSt).1).2.1.countP
      isAckEv = 0 :=
  ⟨rfl, rfl, rfl, fun _ => rfl,
   ((retry_represents_same_message envRetryCase initSt 9 4 rfl rfl
      rfl).2.2.2.2.2.2 (fun _ => rfl)).1⟩

/-- C3: a handler exception is caught, logged (`logCb`), suppressed and
turns `retry` on with no ack and no loop termination; a handler that
raises first and then returns `SUCCESS` for the same message yields
exactly two invocations and exactly one ack. -/
theorem handler_exception_suppressed_retry (env : Env) (m : Msg)
    (h0 : env.stopFlag 0 = false) (h1 : env.stopFlag 1 = false)
    (h2 : env.stopFlag 2 = true)
    (hrecv : env.recv 0 = RecvResult.msg m)
    (hcb0 : env.cb 0 = CbResult.exn)
    (hcb1 : env.cb 1 = CbResult.ret (PyVal.str CONSUMER_STATUS.SUCCESS))
    (hack : env.ackR 0 = true) :
    (∀ (env2 : Env) (s2 : St) (m2 : Msg), s2.retry = false →
      env2.recv s2.iRecv = RecvResult.msg m2 → env2.cb s2.iCb = CbResult.exn →
      iterBody env2 s2 =
        ({ s2 with iRecv := s2.iRecv + 1, message := some m2,
                   iCb := s2.iCb + 1, retry := true },
         [Ev.poll CORTX_HA_WAIT_TIMEOUT (RecvResult.msg m2), Ev.invoke m2,
          Ev.logCb], IterOut.cont)) ∧
    (mainLoop 3 env initSt).2.1 =
      [Ev.poll CORTX_HA_WAIT_TIMEOUT (RecvResult.msg m), Ev.invoke m,
       Ev.logCb, Ev.invoke m, Ev.ack true] ∧
    (mainLoop 3 env initSt).2.1.countP isInvokeEv = 2 ∧
    (mainLoop 3 env initSt).2.1.countP isAckEv = 1 ∧
    (mainLoop 3 env initSt).2.2 = MainExit.stopFlagged := by
  have hgen : ∀ (env2 : Env) (s2 : St) (m2 : Msg), s2.retry = false →
      env2.recv s2.iRecv = RecvResult.msg m2 → env2.cb s2.iCb = CbResult.exn →
      iterBody env2 s2 =
        ({ s2 with iRecv := s2.iRecv + 1, message := some m2,
                   iCb := s2.iCb + 1, retry := true },
         [Ev.poll CORTX_HA_WAIT_TIMEOUT (RecvResult.msg m2), Ev.invoke m2,
          Ev.logCb], IterOut.cont) := by
    intro env2 s2 m2 hr hv hc
    simp [iterBody, handle, hr, hv, hc]
  have hloop : mainLoop 3 env initSt =
      ({ retry := false, message := some m, iStop := 3, iRecv := 1, iCb := 2,
         iAck := 1, iDRecv := 0, iDAck := 0 },
       [Ev.poll CORTX_HA_WAIT_TIMEOUT (RecvResult.msg m), Ev.invoke m,
        Ev.logCb, Ev.invoke m, Ev.ack true], MainExit.stopFlagged) := by
    simp [mainLoop, iterBody, handle, initSt, h0, h1, h2, hrecv, hcb0, hcb1,
          hack, CONSUMER_STATUS.SUCCESS]
  refine ⟨hgen, ?_, ?_, ?_, ?_⟩ <;>
    rw [hloop] <;> simp [List.countP_cons, isInvokeEv, isAckEv]

/-- C3 witness: raise-then-succeed on a concrete environment — two
invocations, one ack. -/
theorem handler_exception_suppressed_retry_witness :
    envExnThenSuccess.stopFlag 0 = false ∧
    envExnThenSuccess.stopFlag 1 = false ∧
    envExnThenSuccess.stopFlag 2 = true ∧
    envExnThenSuccess.recv 0 = RecvResult.msg 7 ∧
    envExnThenSuccess.cb 0 = CbResult.exn ∧
    envExnThenSuccess.cb 1 = CbResult.ret (PyVal.str CONSUMER_STATUS.SUCCESS) ∧
    envExnThenSuccess.ackR 0 = true ∧
    (mainLoop 3 envExnThenSuccess initSt).2.1.countP isInvokeEv = 2 ∧
    (mainLoop 3 envExnThenSuccess initSt).2.1.countP isAckEv = 1 :=
  ⟨rfl, rfl, rfl, rfl, rfl, rfl, rfl,
   (handler_exception_suppressed_retry envExnThenSuccess 7 rfl rfl rfl rfl rfl
      rfl rfl).2.2.1,
   (handler_exception_suppressed_retry envExnThenSuccess 7 rfl rfl rfl rfl rfl
      rfl rfl).2.2.2.1⟩

/-- C4: with flush requested, once the main loop exits (stop flag or
break) `run` appends a drain phase whose trace contains only drain polls
with the short fixed timeout 1 and drain acks — never a handler
invocation — with exactly one ack call per message-returning poll, and
the drain ends in the `stopped` state only after a poll that returned
nothing. -/
theorem stop_flush_drains_to_idle (c : MessageBusConsumer) (env : Env)
    (fuel : Nat) (s : St) (mevs : List Ev) (ex : MainExit)
    (hmain : mainLoop fuel env initSt = (s, mevs, ex))
    (hex : ex ≠ MainExit.fuelOut) :
    ((c.stop true).flush_on_exit = true ∧ (c.stop true).stopFlagSet = true) ∧
    c.run true env fuel =
      ((drainLoop fuel env s).1, mevs ++ (drainLoop fuel env s).2.1,
        (drainLoop fuel env s).2.2.toRunExit) ∧
    (∀ e ∈ (drainLoop fuel env s).2.1,
      (∃ r, e = Ev.drainPoll 1 r) ∨ ∃ ok, e = Ev.drainAck ok) ∧
    ((drainLoop fuel env s).2.1.countP isDrainAckEv =
      (drainLoop fuel env s).2.1.countP isDrainMsgPollEv) ∧
    ((drainLoop fuel env s).2.2 = DrainExit.done →
      ∃ evs0, (drainLoop fuel env s).2.1 =
        evs0 ++ [Ev.drainPoll 1 RecvResult.idle]) := by
  obtain ⟨d1, d2, d3⟩ := drainLoop_events fuel env s
  refine ⟨⟨rfl, rfl⟩, ?_, d1, d2, d3⟩
  unfold MessageBusConsumer.run
  rw [hmain]
  cases ex with
  | fuelOut => exact absurd rfl hex
  | stopFlagged => simp
  | broke => simp

/-- C4 witness: three pending messages at stop time — the drain phase
acks one message per message-returning poll. -/
theorem stop_flush_drains_to_idle_witness :
    mainLoop 5 envDrainThree initSt =
      ({ retry := false, message := none, iStop := 1, iRecv := 0, iCb := 0,
         iAck := 0, iDRecv := 0, iDAck := 0 }, [], MainExit.stopFlagged) ∧
    MainExit.stopFlagged ≠ MainExit.fuelOut ∧
    (drainLoop 5 envDrainThree
        { retry := false, message := none, iStop := 1, iRecv := 0, iCb := 0,
          iAck := 0, iDRecv := 0, iDAck := 0 }).2.1.countP isDrainAckEv =
      (drainLoop 5 envDrainThree
        { retry := false, message := none, iStop := 1, iRecv := 0, iCb := 0,
          iAck := 0, iDRecv := 0, iDAck := 0 }).2.1.countP isDrainMsgPollEv :=
  ⟨rfl, by decide,
   (stop_flush_drains_to_idle sampleConsumer envDrainThree 5
      { retry := false, message := none, iStop := 1, iRecv := 0, iCb := 0,
        iAck := 0, iDRecv := 0, iDAck := 0 } [] MainExit.stopFlagged rfl
      (by decide)).2.2.2.1⟩

/-- C5 counterexample: a consumer constructed with timeout 7 still polls
with the module constant `CORTX_HA_WAIT_TIMEOUT`, which differs from 7 —
the configured receive timeout is not what the worker's poll uses. -/
theorem poll_uses_module_constant_counterexample :
    consumerTimeout7.timeout = 7 ∧
    (consumerTimeout7.run false envIdleThenStop 2).2.1 =
      [Ev.poll CORTX_HA_WAIT_TIMEOUT RecvResult.idle] ∧
    CORTX_HA_WAIT_TIMEOUT ≠ 7 := ⟨rfl, rfl, by decide⟩

/-- C5 (amended): the worker's behaviour is entirely independent of the
consumer object it was constructed from — in particular of the stored
receive timeout — and every poll in any run trace uses the module
constant `CORTX_HA_WAIT_TIMEOUT` (drain polls use 1): the trace contains
no poll with any other timeout. -/
theorem poll_timeout_independent_of_config (c c' : MessageBusConsumer)
    (flush : Bool) (env : Env) (fuel : Nat) :
    c.run flush env fuel = c'.run flush env fuel ∧
    (c.run flush env fuel).2.1.countP wrongTimeoutPoll = 0 := by
  refine ⟨rfl, ?_⟩
  rw [List.countP_eq_zero]
  intro e he
  rcases run_evs c flush env fuel e he with hm | ⟨r, h⟩ | ⟨ok, h⟩
  · rcases hm with ⟨r, h⟩ | ⟨m2, h⟩ | ⟨ok, h⟩ | h | h <;> subst h <;>
      simp [wrongTimeoutPoll]
  · subst h; simp [wrongTimeoutPoll]
  · subst h; simp [wrongTimeoutPoll]

/-- C6 counterexample: a list containing a non-string element is handed
to the transport as-is — `publish` does not raise for it and the batch
is sent, against the claim that it raises with nothing sent. -/
theorem publish_list_element_unchecked_counterexample :
    publish (PyObj.list [PyObj.num 42]) = Except.ok [PyObj.num 42] := rfl

/-- C6 (amended): `publish` sends a mapping as a one-element batch
holding its order-stable serialization, a string as a one-element batch,
and any list as-is with element order preserved and no element check;
only non-dict non-string non-list values (numbers, booleans, `None`)
raise the invalid-type error, and for those nothing is sent. -/
theorem publish_shape_behaviour (kvs : List (String × PyLit)) (s : String)
    (elems : List PyObj) (i : Int) (b : Bool) :
    publish (PyObj.dict kvs) = Except.ok [PyObj.str (jsonDumps kvs)] ∧
    publish (PyObj.str s) = Except.ok [PyObj.str s] ∧
    publish (PyObj.list elems) = Except.ok elems ∧
    publish (PyObj.num i) = Except.error "Invalid type of message" ∧
    publish (PyObj.bool b) = Except.error "Invalid type of message" ∧
    publish PyObj.noneV = Except.error "Invalid type of message" ∧
    publish (PyObj.dict [("a", PyLit.n 1)]) =
      Except.ok [PyObj.str "\x7b\"a\": 1\x7d"] ∧
    publish (PyObj.list [PyObj.str "x", PyObj.str "y"]) =
      Except.ok [PyObj.str "x", PyObj.str "y"] :=
  ⟨rfl, rfl, rfl, rfl, rfl, rfl, rfl, rfl⟩

/-- C7: `register` queries the type list and calls the registration only
when the type is absent; an "already exists" failure is swallowed into
success, any other failure propagates — so a second registration of the
same type (present in the list, or racing into `TOPIC_ALREADY_EXISTS`)
never raises. -/
theorem register_swallows_already_exists (mt : String) (admin : AdminModel)
    (types : List String) (hlist : admin.listResult = Except.ok types) :
    (mt ∈ types → register mt admin = (Except.ok (), false)) ∧
    (mt ∉ types → admin.regResult = Except.ok () →
      register mt admin = (Except.ok (), true)) ∧
    (mt ∉ types → ∀ e, admin.regResult = Except.error e →
      strContains e "TOPIC_ALREADY_EXISTS" = true →
      register mt admin = (Except.ok (), true)) ∧
    (mt ∉ types → ∀ e, admin.regResult = Except.error e →
      strContains e "TOPIC_ALREADY_EXISTS" = false →
      register mt admin = (Except.error e, true)) := by
  refine ⟨?_, ?_, ?_, ?_⟩
  · intro hmem
    simp [register, hlist, hmem]
  · intro hmem hreg
    simp [register, hlist, hmem, hreg]
  · intro hmem e hreg hsub
    simp [register, hlist, hmem, hreg, hsub]
  · intro hmem e hreg hsub
    simp [register, hlist, hmem, hreg, hsub]

/-- C7 witness: registering a type already in the list completes
normally without calling the registration. -/
theorem register_swallows_already_exists_witness :
    ({ listResult := Except.ok ["t"], regResult := Except.ok () } :
        AdminModel).listResult = Except.ok ["t"] ∧
    "t" ∈ ["t"] ∧
    register "t" { listResult := Except.ok ["t"], regResult := Except.ok () } =
      (Except.ok (), false) :=
  ⟨rfl, by decide,
   (register_swallows_already_exists "t"
      { listResult := Except.ok ["t"], regResult := Except.ok () }
      ["t"] rfl).1 (by decide)⟩

/-- C8: a transport exception out of `receive` is caught at the loop's
outer boundary, logged (`logBus`), clears the retry state, and the loop
continues with a fresh poll; likewise an exception out of `ack` after a
`SUCCESS` outcome — it is not turned into a retry of the message. -/
theorem bus_error_logged_loop_continues (env : Env) (s : St) (m : Msg)
    (hretry : s.retry = false) :
    (env.recv s.iRecv = RecvResult.fail →
      iterBody env s =
        ({ s with iRecv := s.iRecv + 1, retry := false },
         [Ev.poll CORTX_HA_WAIT_TIMEOUT RecvResult.fail, Ev.logBus],
         IterOut.cont) ∧
      ∃ rest, (iterBody env (iterBody env s).1).2.1 =
        Ev.poll CORTX_HA_WAIT_TIMEOUT (env.recv (s.iRecv + 1)) :: rest) ∧
    (env.recv s.iRecv = RecvResult.msg m →
      env.cb s.iCb = CbResult.ret (PyVal.str CONSUMER_STATUS.SUCCESS) →
      env.ackR s.iAck = false →
      iterBody env s =
        ({ s with iRecv := s.iRecv + 1, message := some m, iCb := s.iCb + 1,
                  iAck := s.iAck + 1, retry := false },
         [Ev.poll CORTX_HA_WAIT_TIMEOUT (RecvResult.msg m), Ev.invoke m,
          Ev.ack false, Ev.logBus], IterOut.cont) ∧
      ∃ rest, (iterBody env (iterBody env s).1).2.1 =
        Ev.poll CORTX_HA_WAIT_TIMEOUT (env.recv (s.iRecv + 1)) :: rest) := by
  constructor
  · intro hrecv
    have heq : iterBody env s =
        ({ s with iRecv := s.iRecv + 1, retry := false },
         [Ev.poll CORTX_HA_WAIT_TIMEOUT RecvResult.fail, Ev.logBus],
         IterOut.cont) := by
      simp [iterBody, hretry, hrecv]
    refine ⟨heq, ?_⟩
    rw [heq]
    exact iterBody_polls env _ rfl
  · intro hrecv hcb hack
    have heq : iterBody env s =
        ({ s with iRecv := s.iRecv + 1, message := some m, iCb := s.iCb + 1,
                  iAck := s.iAck + 1, retry := false },
         [Ev.poll CORTX_HA_WAIT_TIMEOUT (RecvResult.msg m), Ev.invoke m,
          Ev.ack false, Ev.logBus], IterOut.cont) := by
      simp [iterBody, handle, hretry, hrecv, hcb, hack, CONSUMER_STATUS.SUCCESS]
    refine ⟨heq, ?_⟩
    rw [heq]
    exact iterBody_polls env _ rfl

/-- C8 witness: a raising `receive` on a concrete environment — logged,
retry cleared, loop continues. -/
theorem bus_error_logged_loop_continues_witness :
    initSt.retry = false ∧
    envRecvRaise.recv initSt.iRecv = RecvResult.fail ∧
    iterBody envRecvRaise initSt =
      ({ retry := false, message := none, iStop := 0, iRecv := 1, iCb := 0,
         iAck := 0, iDRecv := 0, iDAck := 0 },
       [Ev.poll CORTX_HA_WAIT_TIMEOUT RecvResult.fail, Ev.logBus],
       IterOut.cont) :=
  ⟨rfl, rfl,
   ((bus_error_logged_loop_continues envRecvRaise initSt 0 rfl).1 rfl).1⟩

/-- C9: `stop` only sets the stop event and the flush flag (the rest of
the consumer is untouched); the loop body is completely independent of
the stop flag, so setting it never interrupts an in-flight poll or
handler call; a message returned by the poll is handled within the same
iteration; and the flag is consulted between iterations, before the next
poll — observed set, the loop ends with no further transport call. -/
theorem stop_observed_between_iterations (c : MessageBusConsumer)
    (flush : Bool) (env : Env) (f : Nat → Bool) (s : St) (m : Msg)
    (fuel : Nat) :
    ((c.stop flush).stopFlagSet = true ∧
     (c.stop flush).flush_on_exit = flush ∧
     (c.stop flush).timeout = c.timeout ∧
     (c.stop flush).message_type = c.message_type) ∧
    iterBody { env with stopFlag := f } s = iterBody env s ∧
    (s.retry = false → env.recv s.iRecv = RecvResult.msg m →
      ∃ rest, (iterBody env s).2.1 =
        Ev.poll CORTX_HA_WAIT_TIMEOUT (RecvResult.msg m) ::
          Ev.invoke m :: rest) ∧
    (env.stopFlag s.iStop = true →
      mainLoop (fuel + 1) env s =
        ({ s with iStop := s.iStop + 1 }, [], MainExit.stopFlagged)) := by
  refine ⟨⟨rfl, rfl, rfl, rfl⟩, rfl, ?_, ?_⟩
  · intro hr hv
    obtain ⟨rest, hrest⟩ :=
      handle_starts env { s with iRecv := s.iRecv + 1, message := some m } m
    rw [hr] at hrest
    refine ⟨rest, ?_⟩
    simp [iterBody, hr, hv, hrest]
  · intro hflag
    simp [mainLoop, hflag]

/-- C9 witness: with the stop flag already set, the next loop check ends
the worker with no further event. -/
theorem stop_observed_between_iterations_witness :
    envStopNow.stopFlag initSt.iStop = true ∧
    mainLoop 1 envStopNow initSt =
      ({ retry := false, message := none, iStop := 1, iRecv := 0, iCb := 0,
         iAck := 0, iDRecv := 0, iDAck := 0 }, [], MainExit.stopFlagged) :=
  ⟨rfl,
   (stop_observed_between_iterations sampleConsumer true envStopNow
      (fun _ => false) initSt 0 0).2.2.2 rfl⟩

/-- C10: a `SUCCESS_STOP` outcome whose ack raises does not terminate
the worker: the exception is caught at the outer boundary, logged,
`retry` is cleared, and the loop continues with a fresh poll — the
voluntary stop is silently discarded. -/
theorem success_stop_ack_raise_discards_stop (env : Env) (s : St) (m : Msg)
    (hretry : s.retry = false) (hrecv : env.recv s.iRecv = RecvResult.msg m)
    (hcb : env.cb s.iCb = CbResult.ret (PyVal.str CONSUMER_STATUS.SUCCESS_STOP))
    (hack : env.ackR s.iAck = false) :
    iterBody env s =
      ({ s with iRecv := s.iRecv + 1, message := some m, iCb := s.iCb + 1,
                iAck := s.iAck + 1, retry := false },
       [Ev.poll CORTX_HA_WAIT_TIMEOUT (RecvResult.msg m), Ev.invoke m,
        Ev.ack false, Ev.logBus], IterOut.cont) ∧
    ∃ rest, (iterBody env (iterBody env s).1).2.1 =
      Ev.poll CORTX_HA_WAIT_TIMEOUT (env.recv (s.iRecv + 1)) :: rest := by
  have heq : iterBody env s =
      ({ s with iRecv := s.iRecv + 1, message := some m, iCb := s.iCb + 1,
                iAck := s.iAck + 1, retry := false },
       [Ev.poll CORTX_HA_WAIT_TIMEOUT (RecvResult.msg m), Ev.invoke m,
        Ev.ack false, Ev.logBus], IterOut.cont) := by
    simp [iterBody, handle, hretry, hrecv, hcb, hack, CONSUMER_STATUS.SUCCESS,
          CONSUMER_STATUS.FAILED_STOP, CONSUMER_STATUS.SUCCESS_STOP]
  refine ⟨heq, ?_⟩
  rw [heq]
  exact iterBody_polls env _ rfl

/-- C10 witness: `SUCCESS_STOP` with a raising ack on a concrete
environment — the iteration continues instead of breaking. -/
theorem success_stop_ack_raise_discards_stop_witness :
    initSt.retry = false ∧
    envStopAckRaise.recv initSt.iRecv = RecvResult.msg 4 ∧
    envStopAckRaise.cb initSt.iCb =
      CbResult.ret (PyVal.str CONSUMER_STATUS.SUCCESS_STOP) ∧
    envStopAckRaise.ackR initSt.iAck = false ∧
    iterBody envStopAckRaise initSt =
      ({ retry := false, message := some 4, iStop := 0, iRecv := 1, iCb := 1,
         iAck := 1, iDRecv := 0, iDAck := 0 },
       [Ev.poll CORTX_HA_WAIT_TIMEOUT (RecvResult.msg 4), Ev.invoke 4,
        Ev.ack false, Ev.logBus], IterOut.cont) :=
  ⟨rfl, rfl, rfl, rfl,
   (success_stop_ack_raise_discards_stop envStopAckRaise initSt 4 rfl rfl rfl
      rfl).1⟩
